import Mathlib

/-!
Verification development for the `idx-copytrading` crawler.

This file gives a shallow embedding, in Lean, of the crawl orchestration
subsystem of the repository:

* `src/broker_crawler.py` — session lifecycle (`_is_session_expired`,
  `_ensure_session_valid`, `_refresh_session`), the retrying request
  executor (`_send_dash_request`), response parsing
  (`_parse_table_data`, `_extract_table_data_from_children`,
  `fetch_broker_data`), checkpointing (`_load_checkpoint`,
  `_save_checkpoint`, `_clear_checkpoint`) and the crawl loop
  (`crawl_all_brokers`);
* `src/cron_runner.py` — the run-status decision of `run_daily_crawl`.

Network and filesystem effects are modelled by passing the environment
(the outcome of each HTTP POST, the outcome of each login attempt, the
durable checkpoint-file content) as explicit parameters, and by recording
observable effects (session refresh attempts, sleeps, checkpoint saves)
in the returned values.  Python floats are modelled as exact rationals;
Python `datetime` values as natural-number epoch seconds.
-/

/-! ## Python values and numeric coercion

A cell of a raw response row, as seen by `float(...)` in
`_parse_table_data`.  `num` is a Python number; `strNum` a string that
`float` parses; `strBad` a string that makes `float` raise `ValueError`;
`pynone` is Python `None` (makes `float` raise `TypeError`). -/

inductive PyVal where
  | num (q : ℚ)
  | strNum (q : ℚ)
  | strBad (s : String)
  | pynone
deriving DecidableEq, Repr

/-- Python `float(v)`: `some` of the numeric value, or `none` when the
call raises `ValueError`/`TypeError` (both caught in `_parse_table_data`). -/
def pyFloat : PyVal → Option ℚ
  | .num q => some q
  | .strNum q => some q
  | .strBad _ => none
  | .pynone => none

/-- One raw row `item` of the Dash `DataTable` data, a Python dict.
`none` in a field means the key is absent (`item.get` returns the
default). -/
structure RawRow where
  symbol : Option String
  netval : Option PyVal
  bval : Option PyVal
  sval : Option PyVal
  bavg : Option PyVal
  savg : Option PyVal
deriving DecidableEq, Repr

/-! ## Symbol extraction (broker_crawler.py lines 489-492) -/

/-- Membership in the regex character class `[A-Z0-9-]`. -/
def symChar (c : Char) : Bool :=
  (decide ('A' ≤ c) && decide (c ≤ 'Z'))
    || (decide ('0' ≤ c) && decide (c ≤ '9'))
    || decide (c = '-')

/-- Model of the `re.match` call on `symbol_raw` at line 491, whose pattern
matches a bracketed run of `symChar`s at the start of the string; the
group inside the brackets replaces the raw value when the match hits.
The regex quantifier is greedy and `]` is outside the class, so
take-while followed by a check for `]` is exact. -/
def extractSymbol (s : String) : String :=
  match s.toList with
  | '[' :: rest =>
      let inner := rest.takeWhile symChar
      let after := rest.dropWhile symChar
      match after with
      | ']' :: _ => if inner = [] then s else String.mk inner
      | _ => s
  | _ => s

/-! ## Parsed records (`BrokerDataRow`, broker_crawler.py lines 167-196) -/

structure BrokerDataRow where
  broker_code : String
  broker_name : String
  table_type : String
  symbol : String
  netval : ℚ
  bval : ℚ
  sval : ℚ
  bavg : ℚ
  savg : ℚ
  crawl_date : String
  crawl_timestamp : String
deriving DecidableEq, Repr

/-- The loop body of `_parse_table_data` for one `item`: `some row` when
all five `float(...)` coercions succeed, `none` when any of them raises
(the row is skipped by the `except (ValueError, TypeError)` handler).
Missing keys default to `0` via `item.get(key, 0)`. -/
def parseRow (broker_code broker_name table_type crawl_date crawl_timestamp : String)
    (item : RawRow) : Option BrokerDataRow :=
  let symbol_raw := item.symbol.getD ""
  let symbol := extractSymbol symbol_raw
  match pyFloat (item.netval.getD (.num 0)), pyFloat (item.bval.getD (.num 0)),
        pyFloat (item.sval.getD (.num 0)), pyFloat (item.bavg.getD (.num 0)),
        pyFloat (item.savg.getD (.num 0)) with
  | some nv, some bv, some sv, some ba, some sa =>
      some ⟨broker_code, broker_name, table_type, symbol, nv, bv, sv, ba, sa,
            crawl_date, crawl_timestamp⟩
  | _, _, _, _, _ => none

/-- Model of `_parse_table_data` (broker_crawler.py lines 476-511): parse each raw
row, dropping the ones whose coercion fails, and keep going. -/
def parseTableData (data : List RawRow)
    (broker_code broker_name table_type crawl_date crawl_timestamp : String) :
    List BrokerDataRow :=
  data.filterMap (parseRow broker_code broker_name table_type crawl_date crawl_timestamp)


/-! ## Dash response structure (broker_crawler.py lines 573-596)

A child of the `children` list of a Dash component.  `node ctype tdata`
models a dict child with `child.get("type", "") = ctype` and
`child.get("props", \x7b\x7d).get("data")` equal to `tdata` (`none` when the
`data` key is absent, so that `props.get("data", [])` yields `[]`).
`nonDict` models a child that is not a dict (skipped by the
`isinstance` check). -/

inductive DashChild where
  | node (ctype : String) (tdata : Option (List RawRow))
  | nonDict
deriving DecidableEq, Repr

/-- The loop of `_extract_table_data_from_children`: the first dict child
of type `DataTable` yields `props.get("data", [])`; otherwise `None`. -/
def findDataTable : List DashChild → Option (List RawRow)
  | [] => none
  | .node ctype tdata :: rest =>
      if ctype = "DataTable" then some (tdata.getD []) else findDataTable rest
  | .nonDict :: rest => findDataTable rest

/-- Model of `_extract_table_data_from_children component`.  The argument is
`none` when `component` is falsy or lacks a `children` key (lines
585-586), and `some children` otherwise. -/
def extractTableDataFromChildren : Option (List DashChild) → Option (List RawRow)
  | none => none
  | some children => findDataTable children

/-- The parsed JSON body of a successful Dash callback: the two
components under the `response` key of the body.  A field is `none` when
the corresponding component is falsy, missing, or lacks `children`. -/
structure DashResp where
  akum : Option (List DashChild)
  dist : Option (List DashChild)
deriving DecidableEq, Repr

/-! ## Resilient request executor (`_send_dash_request`, lines 395-474) -/

/-- Observable outcome of one `self.session.post(...)` attempt together
with what the subsequent checks see: an auth status (401/403), a 5xx
status, a 2xx success with JSON body `resp`, a timeout, a connection
error, any other `requests.RequestException` (including the
`raise_for_status` of a non-auth 4xx), or a `json.JSONDecodeError` from
`response.json()`. -/
inductive PostResult where
  | authFail
  | serverError
  | ok (resp : DashResp)
  | timeoutErr
  | connError
  | otherReqError
  | badJson
deriving DecidableEq, Repr

/-- The backoff delay used at a given attempt for server errors,
timeouts and connection errors (lines 434-437, 446-449, 455-458):
`min(retry_base_delay * (2 ** attempt), retry_max_delay)`. -/
def retryDelay (baseDelay maxDelay : ℚ) (attempt : ℕ) : ℚ :=
  min (baseDelay * 2 ^ attempt) maxDelay

/-- Result of `_send_dash_request`: the returned JSON (or `None`),
together with the observable effects — how many `_refresh_session`
calls were made and which sleeps were performed, in order. -/
structure SendResult where
  result : Option DashResp
  refreshes : ℕ
  sleeps : List ℚ
deriving DecidableEq, Repr

/-- The `for attempt in range(max_retries)` loop of `_send_dash_request`.
`posts a` is the outcome of the POST performed at loop index `a`;
`refreshOk r` is the outcome of the `r`-th `_refresh_session()` call
(0-indexed).  `rem` is the number of loop iterations left, `attempt`
the current loop index, `nRefresh` the number of refresh calls so far
and `sleeps` the accumulated sleeps (reversed). -/
def sendLoop (baseDelay maxDelay : ℚ) (retryOnAuthFail : Bool)
    (posts : ℕ → PostResult) (refreshOk : ℕ → Bool) :
    ℕ → ℕ → ℕ → List ℚ → SendResult
  | 0, _, nRefresh, sleeps => ⟨none, nRefresh, sleeps.reverse⟩
  | rem + 1, attempt, nRefresh, sleeps =>
    match posts attempt with
    | .authFail =>
        if retryOnAuthFail then
          if refreshOk nRefresh then
            sendLoop baseDelay maxDelay retryOnAuthFail posts refreshOk
              rem (attempt + 1) (nRefresh + 1) sleeps
          else ⟨none, nRefresh + 1, sleeps.reverse⟩
        else ⟨none, nRefresh, sleeps.reverse⟩
    | .serverError =>
        sendLoop baseDelay maxDelay retryOnAuthFail posts refreshOk
          rem (attempt + 1) nRefresh (retryDelay baseDelay maxDelay attempt :: sleeps)
    | .ok resp => ⟨some resp, nRefresh, sleeps.reverse⟩
    | .timeoutErr =>
        sendLoop baseDelay maxDelay retryOnAuthFail posts refreshOk
          rem (attempt + 1) nRefresh (retryDelay baseDelay maxDelay attempt :: sleeps)
    | .connError =>
        sendLoop baseDelay maxDelay retryOnAuthFail posts refreshOk
          rem (attempt + 1) nRefresh (retryDelay baseDelay maxDelay attempt :: sleeps)
    | .otherReqError => ⟨none, nRefresh, sleeps.reverse⟩
    | .badJson => ⟨none, nRefresh, sleeps.reverse⟩

/-- Model of `_send_dash_request(payload, retry_on_auth_fail)` with configuration
`max_retries`, `retry_base_delay`, `retry_max_delay`. -/
def sendDashRequest (maxRetries : ℕ) (baseDelay maxDelay : ℚ) (retryOnAuthFail : Bool)
    (posts : ℕ → PostResult) (refreshOk : ℕ → Bool) : SendResult :=
  sendLoop baseDelay maxDelay retryOnAuthFail posts refreshOk maxRetries 0 0 []


/-! ## Session manager (broker_crawler.py lines 331-369)

Session-relevant crawler state: `_logged_in` and `_session_created_at`
(epoch seconds).  Cookie contents are not tracked; clearing them is
recorded as an effect count in `EnsureOutcome`. -/

structure SessionState where
  logged_in : Bool
  session_created_at : Option ℕ
deriving DecidableEq, Repr

/-- Model of `_is_session_expired` (lines 331-336): true when `_session_created_at`
is unset, or when the session age in minutes is at least
`session_max_age_minutes`.  `(now - t) / 60 >= m` over the reals is
`m * 60 <= now - t` over the integers. -/
def isSessionExpired (now : ℕ) (max_age_minutes : ℕ) (st : SessionState) : Bool :=
  match st.session_created_at with
  | none => true
  | some t => decide ((max_age_minutes : ℤ) * 60 ≤ (now : ℤ) - (t : ℤ))

/-- Result of `_ensure_session_valid` / `_refresh_session`: the returned
boolean, the session state afterwards, and the observable effects — how
many times `login()` was called and how many times
`session.cookies.clear()` was called. -/
structure EnsureOutcome where
  ok : Bool
  st : SessionState
  auth_calls : ℕ
  cookie_clears : ℕ
deriving DecidableEq, Repr

/-- The state effect of `login()` (lines 215-284): on success it sets
`_logged_in = True` and `_session_created_at = now`; on failure it
leaves the state as it was.  Whether the handshake succeeds is the
environment parameter `login_ok`. -/
def loginModel (login_ok : Bool) (now : ℕ) (st : SessionState) : Bool × SessionState :=
  if login_ok then (true, ⟨true, some now⟩) else (false, st)

/-- Model of `_refresh_session` (lines 354-369): set `_logged_in = False` and
`_session_created_at = None`, clear the session cookies, then re-login. -/
def refreshSession (login_ok : Bool) (now : ℕ) : EnsureOutcome :=
  let cleared : SessionState := ⟨false, none⟩
  let r := loginModel login_ok now cleared
  ⟨r.1, r.2, 1, 1⟩

/-- Model of `_ensure_session_valid` (lines 338-352): returns `False` at once when
not logged in; refreshes when the session is expired; otherwise a no-op. -/
def ensureSessionValid (login_ok : Bool) (now max_age_minutes : ℕ)
    (st : SessionState) : EnsureOutcome :=
  if st.logged_in = false then ⟨false, st, 0, 0⟩
  else if isSessionExpired now max_age_minutes st then refreshSession login_ok now
  else ⟨true, st, 0, 0⟩

/-! ## Checkpoint store (broker_crawler.py lines 598-666) -/

/-- The persisted checkpoint document (lines 649-656).  `saved_rows`
models the `partial_data` field. -/
structure Checkpoint where
  started_at : ℕ
  last_broker_index : ℕ
  last_broker_code : String
  completed_brokers : List String
  failed_brokers : List String
  saved_rows : List BrokerDataRow
deriving DecidableEq, Repr

/-- Coarse content of the checkpoint file when it exists, as seen by
the crawl orchestrator model: restricted to the contents on which
`_load_checkpoint` returns rather than raises.  `corrupt` covers the
exception classes the handler at line 629 catches
(`json.JSONDecodeError` from invalid JSON, `ValueError` from a bad or
absent `started_at` string, `KeyError`); `valid` is a well-formed
checkpoint document.  The full classification of file contents,
including the ones on which `_load_checkpoint` raises, is
`CheckpointFile` below. -/
inductive FileContent where
  | corrupt
  | valid (cp : Checkpoint)
deriving DecidableEq, Repr

/-- Model of `_load_checkpoint` (lines 602-631): `None` when the file is missing
or corrupt, or when the checkpoint is older than 2 hours
(`age_hours > 2`, i.e. `now - started_at > 7200` seconds). -/
def loadCheckpoint (now : ℕ) (file : Option FileContent) : Option Checkpoint :=
  match file with
  | none => none
  | some .corrupt => none
  | some (.valid cp) => if 7200 < now - cp.started_at then none else some cp

/-- Full classification of the content of an existing checkpoint file,
by how `_load_checkpoint` (lines 602-631) reacts to it.  The handler at
line 629 catches only `json.JSONDecodeError`, `ValueError` and
`KeyError`, so:

* `unreadable` — the file exists but `open` raises `OSError`: NOT caught;
* `badJson` — `json.load` raises `JSONDecodeError`: caught;
* `nonDictJson` — the JSON is valid but not an object (e.g. the
  document `[1]`), so `checkpoint.get` raises `AttributeError`: NOT
  caught;
* `badStartString` — an object whose `started_at` is absent (the `get`
  default is the empty string) or is a string that
  `datetime.fromisoformat` rejects, raising `ValueError`: caught;
* `nonStringStart` — an object whose `started_at` is present but not a
  string (e.g. a number or `null`), so `fromisoformat` raises
  `TypeError`: NOT caught;
* `parsed cp` — an object with an ISO `started_at`. -/
inductive CheckpointFile where
  | unreadable
  | badJson
  | nonDictJson
  | badStartString
  | nonStringStart
  | parsed (cp : Checkpoint)
deriving DecidableEq, Repr

/-- What a call to `_load_checkpoint` does: return a value, or let an
uncaught exception propagate to the caller. -/
inductive LoadOutcome where
  | ret (cp : Option Checkpoint)
  | raised
deriving DecidableEq, Repr

/-- Full model of `_load_checkpoint` (lines 602-631) over the raw file
content: a missing file and the contents raising a caught exception
class yield `None`; a parsed checkpoint is subject to the 2-hour
freshness check (`age_hours > 2`, i.e. `now - started_at > 7200`
seconds); the contents raising `OSError`, `AttributeError` or
`TypeError` propagate the exception. -/
def loadCheckpointFull (now : ℕ) (file : Option CheckpointFile) : LoadOutcome :=
  match file with
  | none => .ret none
  | some .unreadable => .raised
  | some .badJson => .ret none
  | some .nonDictJson => .raised
  | some .badStartString => .ret none
  | some .nonStringStart => .raised
  | some (.parsed cp) =>
      if 7200 < now - cp.started_at then .ret none else .ret (some cp)


/-! ## Single-broker fetch (`fetch_broker_data`, lines 513-571) -/

/-- Model of `fetch_broker_data` given the environment: whether the crawler is
logged in and the JSON returned by the executor (`resp = none` models both a
`None` return from `_send_dash_request` and a dict without a `response`
key, lines 544-546).  An extracted table that is `None` or the empty
list is falsy, so its `if buy_data:` / `if sell_data:` block is
skipped. -/
def fetchBrokerData (logged_in : Bool) (resp : Option DashResp)
    (broker_code broker_name crawl_date crawl_timestamp : String) :
    List BrokerDataRow :=
  if logged_in = false then []
  else
    match resp with
    | none => []
    | some r =>
        let buyRows :=
          match extractTableDataFromChildren r.akum with
          | some d =>
              if d = [] then []
              else parseTableData d broker_code broker_name "buy" crawl_date crawl_timestamp
          | none => []
        let sellRows :=
          match extractTableDataFromChildren r.dist with
          | some d =>
              if d = [] then []
              else parseTableData d broker_code broker_name "sell" crawl_date crawl_timestamp
          | none => []
        buyRows ++ sellRows

/-! ## Crawl orchestrator (`crawl_all_brokers`, lines 668-782) -/

/-- One entry of the static broker reference list. -/
structure Broker where
  code : String
  name : String
deriving DecidableEq, Repr

/-- Outcome of the `rows = self.fetch_broker_data(...)` call for one
broker: the returned list, or an exception caught by the
`except Exception` handler at line 731. -/
inductive FetchOutcome where
  | rows (rs : List BrokerDataRow)
  | exn
deriving DecidableEq, Repr

/-- Rows contributed to `all_data` by one fetch outcome: the fetched rows
when the fetch returned, nothing when it raised. -/
def rowsOf : FetchOutcome → List BrokerDataRow
  | .rows rs => rs
  | .exn => []

/-- Mutable locals of the `crawl_all_brokers` loop, plus the recorded
effects: which broker indices were fetched and every checkpoint written
by `_save_checkpoint`, in order. -/
structure CrawlState where
  all_data : List BrokerDataRow
  successful_brokers : List String
  failed_brokers : List String
  fetched : List ℕ
  saves : List Checkpoint
deriving DecidableEq, Repr

/-- The `try`/`except` classification at lines 723-733: a non-empty
result extends `all_data` and records the broker as successful; an
empty result or an exception records it as failed. -/
def classifyFetch (st : CrawlState) (code : String) (outcome : FetchOutcome) : CrawlState :=
  match outcome with
  | .rows rs =>
      if rs = [] then { st with failed_brokers := st.failed_brokers ++ [code] }
      else { st with all_data := st.all_data ++ rs,
                     successful_brokers := st.successful_brokers ++ [code] }
  | .exn => { st with failed_brokers := st.failed_brokers ++ [code] }

/-- One iteration of the loop at lines 714-747 for the broker at
0-based index `ib.1`: fetch, classify, then save a checkpoint carrying
the current lists (the ignored `_ensure_session_valid()` call and the
rate-limit sleep have no effect on the result). -/
def processOne (fetch : ℕ → FetchOutcome) (started_at : ℕ)
    (st : CrawlState) (ib : ℕ × Broker) : CrawlState :=
  let st1 := classifyFetch { st with fetched := st.fetched ++ [ib.1] } ib.2.code (fetch ib.1)
  { st1 with saves := st1.saves ++
      [⟨started_at, ib.1, ib.2.code, st1.successful_brokers, st1.failed_brokers,
        st1.all_data⟩] }

/-- The whole `for i, broker in enumerate(brokers[start_index:], ...)`
loop. -/
def crawlLoop (fetch : ℕ → FetchOutcome) (started_at : ℕ)
    (items : List (ℕ × Broker)) (st : CrawlState) : CrawlState :=
  items.foldl (processOne fetch started_at) st

/-- Python `enumerate` with 0-based indices starting at `n`. -/
def enumIdx {α : Type} : ℕ → List α → List (ℕ × α)
  | _, [] => []
  | n, x :: xs => (n, x) :: enumIdx (n + 1) xs

/-- The list of consecutive indices `a, a+1, ..., a+len-1`. -/
def idxSpan : ℕ → ℕ → List ℕ
  | _, 0 => []
  | a, len + 1 => a :: idxSpan (a + 1) len

/-- Rows newly collected while iterating over `items`. -/
def newRows (fetch : ℕ → FetchOutcome) : List (ℕ × Broker) → List BrokerDataRow
  | [] => []
  | ib :: rest => rowsOf (fetch ib.1) ++ newRows fetch rest

/-- Value of `start_index` after a possible resume (lines 694-701): one past the
`last_broker_index` of the loaded checkpoint, or `0`. -/
def startIndex (cp : Option Checkpoint) : ℕ :=
  match cp with
  | some c => c.last_broker_index + 1
  | none => 0

/-- The loop locals seeded from the loaded checkpoint (lines 702-704),
or empty for a fresh run. -/
def initState (cp : Option Checkpoint) : CrawlState :=
  match cp with
  | some c => ⟨c.saved_rows, c.completed_brokers, c.failed_brokers, [], []⟩
  | none => ⟨[], [], [], [], []⟩

/-- Result dictionary of `crawl_all_brokers` (lines 758-773), with the
recorded effects and the durable checkpoint-file state at return time. -/
structure CrawlResult where
  successful_broker_codes : List String
  failed_broker_codes : List String
  data : List BrokerDataRow
  total_brokers : ℕ
  resumed : Bool
  fetched : List ℕ
  saves : List Checkpoint
  file_after : Option FileContent
deriving DecidableEq, Repr

/-- The logged-in body of `crawl_all_brokers(brokers, resume)`, with the
checkpoint-file content `file` and current time `now` as environment.
`file_after := none` embeds the unconditional `self._clear_checkpoint()`
at line 776, executed on every path that reaches the end of the loop. -/
def crawlRun (fetch : ℕ → FetchOutcome) (brokers : List Broker)
    (resume : Bool) (file : Option FileContent) (now : ℕ) : CrawlResult :=
  let cp := if resume then loadCheckpoint now file else none
  let start := startIndex cp
  let started_at := match cp with | some c => c.started_at | none => now
  let final := crawlLoop fetch started_at (enumIdx start (brokers.drop start)) (initState cp)
  { successful_broker_codes := final.successful_brokers,
    failed_broker_codes := final.failed_brokers,
    data := final.all_data,
    total_brokers := brokers.length,
    resumed := resume && cp.isSome,
    fetched := final.fetched,
    saves := final.saves,
    file_after := none }

/-- Model of `crawl_all_brokers` (lines 668-782): `none` models the early
`\x7b"error": "Not logged in"\x7d` return at line 688. -/
def crawlAllBrokers (logged_in : Bool) (fetch : ℕ → FetchOutcome)
    (brokers : List Broker) (resume : Bool) (file : Option FileContent)
    (now : ℕ) : Option CrawlResult :=
  if logged_in then some (crawlRun fetch brokers resume file now) else none

/-! ## Cron runner status decision (`run_daily_crawl`, cron_runner.py) -/

inductive RunStatus where
  | success
  | skipped
  | partial_failure
  | error
deriving DecidableEq, Repr

/-- The status decision of `run_daily_crawl` (cron_runner.py lines
45-160) as a function of its environment: the trading-day predicate,
database connectivity, the prior-successful-crawl check, login, and the
crawl result.  `result["successful_brokers"]` is updated only inside
`if crawl_result.get("data"):` (lines 101-111), so it stays `0` when
the crawl produced no rows; the success rate divides by the full broker
list length (line 118) and the threshold check is at line 119. -/
def runDailyCrawl (trading_day db_ok has_prior login_ok : Bool)
    (crawl : CrawlResult) (total_broker_count : ℕ) : RunStatus :=
  if trading_day = false then .skipped
  else if db_ok = false then .error
  else if has_prior then .skipped
  else if login_ok = false then .error
  else
    let successful_count : ℕ :=
      if crawl.data = [] then 0 else crawl.successful_broker_codes.length
    let success_rate : ℚ :=
      if total_broker_count = 0 then 0
      else (successful_count : ℚ) / (total_broker_count : ℚ)
    if (4 : ℚ) / 5 ≤ success_rate then .success else .partial_failure


/-- Good and bad raw rows for the C9 witness. -/
def c9RowA : RawRow :=
  ⟨some "[AA](/x)", some (.num 1), some (.num 2), some (.num 3), some (.num 4), some (.num 5)⟩

/-- POST outcomes for the C1 counterexample: the first two attempts hit
an auth failure, the third succeeds. -/
def c1Posts : ℕ → PostResult :=
  fun a => if a < 2 then .authFail else .ok ⟨none, none⟩

/-- True for a `children` entry that is a dict whose `type` is
`DataTable`. -/
def isDataTableChild : DashChild → Bool
  | .node ctype _ => ctype = "DataTable"
  | .nonDict => false

/-! ## Basic evaluations -/

example :
    extractSymbol "[BBNI](/stock_detail/BBNI)" = "BBNI" := by decide

example : extractSymbol "BBNI" = "BBNI" := by decide

example :
    parseTableData
      [⟨some "[AA](/x)", some (.num 1), some (.num 2), some (.num 3),
        some (.num 4), some (.num 5)⟩,
       ⟨some "BB", some (.strBad "oops"), some (.num 2), some (.num 3),
        some (.num 4), some (.num 5)⟩]
      "AD" "n" "buy" "d" "t"
      = [⟨"AD", "n", "buy", "AA", 1, 2, 3, 4, 5, "d", "t"⟩] := by decide

example :
    sendDashRequest 3 1 10 true (fun _ => .serverError) (fun _ => true)
      = ⟨none, 0, [1, 2, 4]⟩ := by
  simp [sendDashRequest, sendLoop, retryDelay]
  norm_num

example :
    sendDashRequest 3 1 10 true (fun a => if a = 0 then .authFail else .ok ⟨none, none⟩)
      (fun _ => true) = ⟨some ⟨none, none⟩, 1, []⟩ := by decide

example : loadCheckpoint 8000 (some (.valid ⟨100, 0, "AD", [], [], []⟩)) = none := by decide

example :
    loadCheckpoint 7300 (some (.valid ⟨100, 0, "AD", [], [], []⟩))
      = some ⟨100, 0, "AD", [], [], []⟩ := by decide

example :
    (crawlRun (fun _ => .exn) [⟨"AD", "OSO"⟩, ⟨"AF", "Harita"⟩] false none 0).failed_broker_codes
      = ["AD", "AF"] := by decide

/-! ## Helper lemmas -/

lemma enumIdx_map_fst {α : Type} (n : ℕ) (l : List α) :
    (enumIdx n l).map Prod.fst = idxSpan n l.length := by
  induction l generalizing n with
  | nil => rfl
  | cons x xs ih => simp [enumIdx, idxSpan, ih]

lemma enumIdx_map_snd_apply {α β : Type} (f : α → β) (n : ℕ) (l : List α) :
    (enumIdx n l).map (fun ib => f ib.2) = l.map f := by
  induction l generalizing n with
  | nil => rfl
  | cons x xs ih => simp [enumIdx, ih]

lemma enumIdx_length {α : Type} (n : ℕ) (l : List α) :
    (enumIdx n l).length = l.length := by
  induction l generalizing n with
  | nil => rfl
  | cons x xs ih => simp [enumIdx, ih]

lemma processOne_fetched (fetch : ℕ → FetchOutcome) (sa : ℕ)
    (st : CrawlState) (ib : ℕ × Broker) :
    (processOne fetch sa st ib).fetched = st.fetched ++ [ib.1] := by
  simp only [processOne, classifyFetch]
  cases fetch ib.1 with
  | rows rs => by_cases h : rs = [] <;> simp [h]
  | exn => simp

lemma processOne_data (fetch : ℕ → FetchOutcome) (sa : ℕ)
    (st : CrawlState) (ib : ℕ × Broker) :
    (processOne fetch sa st ib).all_data = st.all_data ++ rowsOf (fetch ib.1) := by
  simp only [processOne, classifyFetch]
  cases fetch ib.1 with
  | rows rs => by_cases h : rs = [] <;> simp [h, rowsOf]
  | exn => simp [rowsOf]

lemma processOne_saves_length (fetch : ℕ → FetchOutcome) (sa : ℕ)
    (st : CrawlState) (ib : ℕ × Broker) :
    (processOne fetch sa st ib).saves.length = st.saves.length + 1 := by
  simp only [processOne, classifyFetch]
  cases fetch ib.1 with
  | rows rs => by_cases h : rs = [] <;> simp [h]
  | exn => simp

lemma processOne_perm (fetch : ℕ → FetchOutcome) (sa : ℕ)
    (st : CrawlState) (ib : ℕ × Broker) :
    ((processOne fetch sa st ib).successful_brokers
        ++ (processOne fetch sa st ib).failed_brokers).Perm
      ((st.successful_brokers ++ st.failed_brokers) ++ [ib.2.code]) := by
  simp only [processOne, classifyFetch]
  cases fetch ib.1 with
  | rows rs =>
      by_cases h : rs = []
      · simp [h, List.append_assoc]
      · simp only [h, if_neg, ite_false]
        have hmid : (st.successful_brokers ++ ([ib.2.code] ++ st.failed_brokers)).Perm
            (st.successful_brokers ++ (st.failed_brokers ++ [ib.2.code])) :=
          List.Perm.append_left _ List.perm_append_comm
        simpa [List.append_assoc] using hmid
  | exn => simp [List.append_assoc]

lemma processOne_succ_inv (fetch : ℕ → FetchOutcome) (sa : ℕ)
    (st : CrawlState) (ib : ℕ × Broker)
    (h : st.successful_brokers ≠ [] → st.all_data ≠ []) :
    (processOne fetch sa st ib).successful_brokers ≠ []
      → (processOne fetch sa st ib).all_data ≠ [] := by
  simp only [processOne, classifyFetch]
  cases fetch ib.1 with
  | rows rs =>
      by_cases hrs : rs = []
      · simpa [hrs] using h
      · simp [hrs]
  | exn => simpa using h

lemma crawlLoop_fetched (fetch : ℕ → FetchOutcome) (sa : ℕ)
    (items : List (ℕ × Broker)) (st : CrawlState) :
    (crawlLoop fetch sa items st).fetched = st.fetched ++ items.map Prod.fst := by
  induction items generalizing st with
  | nil => simp [crawlLoop]
  | cons ib rest ih =>
      simp only [crawlLoop, List.foldl_cons, List.map_cons]
      rw [show List.foldl (processOne fetch sa) (processOne fetch sa st ib) rest
            = crawlLoop fetch sa rest (processOne fetch sa st ib) from rfl, ih,
          processOne_fetched]
      simp

lemma crawlLoop_data (fetch : ℕ → FetchOutcome) (sa : ℕ)
    (items : List (ℕ × Broker)) (st : CrawlState) :
    (crawlLoop fetch sa items st).all_data = st.all_data ++ newRows fetch items := by
  induction items generalizing st with
  | nil => simp [crawlLoop, newRows]
  | cons ib rest ih =>
      simp only [crawlLoop, List.foldl_cons, newRows]
      rw [show List.foldl (processOne fetch sa) (processOne fetch sa st ib) rest
            = crawlLoop fetch sa rest (processOne fetch sa st ib) from rfl, ih,
          processOne_data]
      simp

lemma crawlLoop_saves_length (fetch : ℕ → FetchOutcome) (sa : ℕ)
    (items : List (ℕ × Broker)) (st : CrawlState) :
    (crawlLoop fetch sa items st).saves.length = st.saves.length + items.length := by
  induction items generalizing st with
  | nil => simp [crawlLoop]
  | cons ib rest ih =>
      simp only [crawlLoop, List.foldl_cons, List.length_cons]
      rw [show List.foldl (processOne fetch sa) (processOne fetch sa st ib) rest
            = crawlLoop fetch sa rest (processOne fetch sa st ib) from rfl, ih,
          processOne_saves_length]
      omega

lemma crawlLoop_perm (fetch : ℕ → FetchOutcome) (sa : ℕ)
    (items : List (ℕ × Broker)) (st : CrawlState) :
    ((crawlLoop fetch sa items st).successful_brokers
        ++ (crawlLoop fetch sa items st).failed_brokers).Perm
      ((st.successful_brokers ++ st.failed_brokers)
        ++ items.map (fun ib => ib.2.code)) := by
  induction items generalizing st with
  | nil => simp [crawlLoop]
  | cons ib rest ih =>
      simp only [crawlLoop, List.foldl_cons, List.map_cons]
      refine List.Perm.trans
        (show _ from ih (processOne fetch sa st ib)) ?_
      refine List.Perm.trans
        (List.Perm.append_right _ (processOne_perm fetch sa st ib)) ?_
      simp [List.append_assoc]

lemma crawlLoop_succ_inv (fetch : ℕ → FetchOutcome) (sa : ℕ)
    (items : List (ℕ × Broker)) (st : CrawlState)
    (h : st.successful_brokers ≠ [] → st.all_data ≠ []) :
    (crawlLoop fetch sa items st).successful_brokers ≠ []
      → (crawlLoop fetch sa items st).all_data ≠ [] := by
  induction items generalizing st with
  | nil => simpa [crawlLoop] using h
  | cons ib rest ih =>
      simp only [crawlLoop, List.foldl_cons]
      exact ih (processOne fetch sa st ib) (processOne_succ_inv fetch sa st ib h)

lemma filterMap_length_of_isSome {α β : Type} (f : α → Option β) (l : List α)
    (h : ∀ r ∈ l, (f r).isSome) :
    (l.filterMap f).length = l.length := by
  induction l with
  | nil => rfl
  | cons x xs ih =>
      have hx : (f x).isSome := h x (List.mem_cons_self x xs)
      obtain ⟨y, hy⟩ := Option.isSome_iff_exists.mp hx
      simp [List.filterMap_cons, hy, ih fun r hr => h r (List.mem_cons_of_mem x hr)]

lemma crawlRun_fresh (fetch : ℕ → FetchOutcome) (brokers : List Broker) (now : ℕ) :
    crawlRun fetch brokers false none now =
      { successful_broker_codes :=
          (crawlLoop fetch now (enumIdx 0 brokers) ⟨[], [], [], [], []⟩).successful_brokers,
        failed_broker_codes :=
          (crawlLoop fetch now (enumIdx 0 brokers) ⟨[], [], [], [], []⟩).failed_brokers,
        data := (crawlLoop fetch now (enumIdx 0 brokers) ⟨[], [], [], [], []⟩).all_data,
        total_brokers := brokers.length,
        resumed := false,
        fetched := (crawlLoop fetch now (enumIdx 0 brokers) ⟨[], [], [], [], []⟩).fetched,
        saves := (crawlLoop fetch now (enumIdx 0 brokers) ⟨[], [], [], [], []⟩).saves,
        file_after := none } := by
  simp [crawlRun, startIndex, initState]

lemma crawlRun_resumed (fetch : ℕ → FetchOutcome) (brokers : List Broker) (now : ℕ)
    (cp : Checkpoint) (hfresh : now - cp.started_at ≤ 7200) :
    crawlRun fetch brokers true (some (.valid cp)) now =
      { successful_broker_codes :=
          (crawlLoop fetch cp.started_at
            (enumIdx (cp.last_broker_index + 1) (brokers.drop (cp.last_broker_index + 1)))
            ⟨cp.saved_rows, cp.completed_brokers, cp.failed_brokers, [], []⟩).successful_brokers,
        failed_broker_codes :=
          (crawlLoop fetch cp.started_at
            (enumIdx (cp.last_broker_index + 1) (brokers.drop (cp.last_broker_index + 1)))
            ⟨cp.saved_rows, cp.completed_brokers, cp.failed_brokers, [], []⟩).failed_brokers,
        data :=
          (crawlLoop fetch cp.started_at
            (enumIdx (cp.last_broker_index + 1) (brokers.drop (cp.last_broker_index + 1)))
            ⟨cp.saved_rows, cp.completed_brokers, cp.failed_brokers, [], []⟩).all_data,
        total_brokers := brokers.length,
        resumed := true,
        fetched :=
          (crawlLoop fetch cp.started_at
            (enumIdx (cp.last_broker_index + 1) (brokers.drop (cp.last_broker_index + 1)))
            ⟨cp.saved_rows, cp.completed_brokers, cp.failed_brokers, [], []⟩).fetched,
        saves :=
          (crawlLoop fetch cp.started_at
            (enumIdx (cp.last_broker_index + 1) (brokers.drop (cp.last_broker_index + 1)))
            ⟨cp.saved_rows, cp.completed_brokers, cp.failed_brokers, [], []⟩).saves,
        file_after := none } := by
  have h : ¬ 7200 < now - cp.started_at := Nat.not_lt.mpr hfresh
  simp [crawlRun, loadCheckpoint, startIndex, initState, h]

/-! ## Claim C7 -/

lemma loadCheckpointFull_agrees (now : ℕ) :
    loadCheckpointFull now none = .ret (loadCheckpoint now none)
    ∧ loadCheckpointFull now (some .badJson) = .ret (loadCheckpoint now (some .corrupt))
    ∧ loadCheckpointFull now (some .badStartString)
        = .ret (loadCheckpoint now (some .corrupt))
    ∧ ∀ cp : Checkpoint,
        loadCheckpointFull now (some (.parsed cp))
          = .ret (loadCheckpoint now (some (.valid cp))) := by
  refine ⟨rfl, rfl, rfl, fun cp => ?_⟩
  simp only [loadCheckpointFull, loadCheckpoint]
  by_cases h : 7200 < now - cp.started_at <;> simp [h]

/-- C7 counterexample: an existing checkpoint file whose JSON is valid
but not an object (e.g. the document `[1]`) makes `_load_checkpoint`
raise `AttributeError` at `checkpoint.get` instead of returning `None`,
and an object whose `started_at` is a number makes
`datetime.fromisoformat` raise `TypeError` — neither exception is in
the `except (json.JSONDecodeError, ValueError, KeyError)` clause at
line 629.  This falsifies "a missing, stale, corrupt, or unparsable
checkpoint is treated as absent (None is returned) without raising". -/
theorem C7_counterexample :
    loadCheckpointFull 0 (some .nonDictJson) = .raised
    ∧ loadCheckpointFull 0 (some .nonDictJson) ≠ .ret none
    ∧ loadCheckpointFull 0 (some .nonStringStart) = .raised
    ∧ loadCheckpointFull 0 (some .nonStringStart) ≠ .ret none := by
  refine ⟨rfl, by decide, rfl, by decide⟩

/-- C7 (amended): `_load_checkpoint` returns a stored checkpoint exactly
when the file exists, parses as a JSON object with an ISO `started_at`
string, and that `started_at` is within the 2-hour freshness window.  A
missing file, invalid JSON, or an absent or malformed `started_at`
string is treated as absent (`None` is returned, nothing propagates:
those paths raise only the caught
`JSONDecodeError`/`ValueError`/`KeyError`).  But an unreadable file, a
JSON document that is not an object, or a `started_at` of non-string
type raises an uncaught exception (`OSError` / `AttributeError` /
`TypeError`) instead of being treated as absent. -/
theorem C7_load_checkpoint_outcome (now : ℕ) (file : Option CheckpointFile)
    (cp : Checkpoint) :
    (loadCheckpointFull now file = .ret (some cp) ↔
      file = some (.parsed cp) ∧ now - cp.started_at ≤ 7200)
    ∧ (loadCheckpointFull now file = .raised ↔
      file = some .unreadable ∨ file = some .nonDictJson
        ∨ file = some .nonStringStart) := by
  cases file with
  | none => exact ⟨by simp [loadCheckpointFull], by simp [loadCheckpointFull]⟩
  | some fc =>
      cases fc with
      | unreadable => exact ⟨by simp [loadCheckpointFull], by simp [loadCheckpointFull]⟩
      | badJson => exact ⟨by simp [loadCheckpointFull], by simp [loadCheckpointFull]⟩
      | nonDictJson => exact ⟨by simp [loadCheckpointFull], by simp [loadCheckpointFull]⟩
      | badStartString => exact ⟨by simp [loadCheckpointFull], by simp [loadCheckpointFull]⟩
      | nonStringStart => exact ⟨by simp [loadCheckpointFull], by simp [loadCheckpointFull]⟩
      | parsed c =>
          refine ⟨?_, ?_⟩
          · simp only [loadCheckpointFull]
            by_cases h : 7200 < now - c.started_at
            · simp only [h, ite_true]
              constructor
              · intro hc
                exact absurd hc (by simp)
              · rintro ⟨hc, hle⟩
                obtain rfl : c = cp := by simpa using hc
                omega
            · simp only [h, ite_false]
              constructor
              · intro hc
                obtain rfl : c = cp := by simpa using hc
                exact ⟨rfl, by omega⟩
              · rintro ⟨hc, _⟩
                obtain rfl : c = cp := by simpa using hc
                rfl
          · simp only [loadCheckpointFull]
            by_cases h : 7200 < now - c.started_at <;> simp [h]

/-! ## Claim C8 -/

/-- C8: for every attempt number `a`, the retry delay used by
`_send_dash_request` for server errors, timeouts and connection
failures equals `min(retry_base_delay * 2 ^ a, retry_max_delay)`, is
monotonically non-decreasing in `a`, and never exceeds
`retry_max_delay` (for a non-negative base delay). -/
theorem C8_retry_backoff (baseDelay maxDelay : ℚ) (hb : 0 ≤ baseDelay) (a : ℕ) :
    retryDelay baseDelay maxDelay a = min (baseDelay * 2 ^ a) maxDelay
    ∧ retryDelay baseDelay maxDelay a ≤ retryDelay baseDelay maxDelay (a + 1)
    ∧ retryDelay baseDelay maxDelay a ≤ maxDelay := by
  refine ⟨rfl, ?_, min_le_right _ _⟩
  apply min_le_min _ le_rfl
  apply mul_le_mul_of_nonneg_left _ hb
  exact pow_le_pow_right₀ one_le_two (Nat.le_succ a)

/-- Witness for C8 at the configured crawler values
`retry_base_delay = 1.0`, `retry_max_delay = 10.0` and attempt 2. -/
theorem C8_retry_backoff_witness :
    (0 : ℚ) ≤ 1
    ∧ (retryDelay 1 10 2 = min ((1 : ℚ) * 2 ^ 2) 10
        ∧ retryDelay 1 10 2 ≤ retryDelay 1 10 3
        ∧ retryDelay 1 10 2 ≤ 10) :=
  ⟨by norm_num, C8_retry_backoff 1 10 (by norm_num) 2⟩

/-! ## Claim C9 -/

/-- C9: for every batch of raw rows in which exactly one row fails
numeric coercion (e.g. a non-numeric `netval`) and all other rows
parse, `_parse_table_data` returns exactly one fewer record than the
input row count; the malformed row is dropped and parsing continues
(the model is a total function, so nothing is raised). -/
theorem C9_single_bad_row (pre post : List RawRow) (bad : RawRow)
    (bc bn tbl cd ct : String)
    (hbad : parseRow bc bn tbl cd ct bad = none)
    (hgood : ∀ r ∈ pre ++ post, (parseRow bc bn tbl cd ct r).isSome) :
    (parseTableData (pre ++ bad :: post) bc bn tbl cd ct).length
      = (pre ++ bad :: post).length - 1 := by
  have hp : ∀ r ∈ pre, (parseRow bc bn tbl cd ct r).isSome :=
    fun r hr => hgood r (List.mem_append_left _ hr)
  have hq : ∀ r ∈ post, (parseRow bc bn tbl cd ct r).isSome :=
    fun r hr => hgood r (List.mem_append_right _ hr)
  simp only [parseTableData, List.filterMap_append, List.filterMap_cons, hbad,
    List.length_append, List.length_cons,
    filterMap_length_of_isSome _ pre hp, filterMap_length_of_isSome _ post hq]
  omega


def c9RowBad : RawRow :=
  ⟨some "BB", some (.strBad "x"), some (.num 2), some (.num 3), some (.num 4), some (.num 5)⟩

def c9RowC : RawRow :=
  ⟨some "CC", some (.num 9), some (.num 2), some (.num 3), some (.num 4), some (.num 5)⟩

/-- Witness for C9: a three-row batch whose middle row has a
non-numeric `netval` yields two records. -/
theorem C9_single_bad_row_witness :
    parseRow "AD" "n" "buy" "d" "t" c9RowBad = none
    ∧ (∀ r ∈ [c9RowA] ++ [c9RowC], (parseRow "AD" "n" "buy" "d" "t" r).isSome)
    ∧ (parseTableData ([c9RowA] ++ c9RowBad :: [c9RowC]) "AD" "n" "buy" "d" "t").length
        = ([c9RowA] ++ c9RowBad :: [c9RowC]).length - 1 :=
  ⟨by decide, by decide,
    C9_single_bad_row [c9RowA] [c9RowC] c9RowBad "AD" "n" "buy" "d" "t"
      (by decide) (by decide)⟩

/-! ## Claim C2 -/

/-- C2: for every entity list with distinct broker codes, a full run of
`crawl_all_brokers` by a logged-in crawler without resume processes
every entity (per-entity failures — a fetch exception or an empty fetch
— are recorded and iteration continues: `fetched` covers all indices
`0..N-1`), and ends with
`len(successful_brokers) + len(failed_brokers) = N` with no broker code
in both lists or twice in either. -/
theorem C2_full_run_partition (fetch : ℕ → FetchOutcome) (brokers : List Broker)
    (now : ℕ) (hnd : (brokers.map Broker.code).Nodup) :
    crawlAllBrokers true fetch brokers false none now
        = some (crawlRun fetch brokers false none now)
    ∧ (crawlRun fetch brokers false none now).fetched = idxSpan 0 brokers.length
    ∧ (crawlRun fetch brokers false none now).successful_broker_codes.length
        + (crawlRun fetch brokers false none now).failed_broker_codes.length
        = brokers.length
    ∧ ((crawlRun fetch brokers false none now).successful_broker_codes
        ++ (crawlRun fetch brokers false none now).failed_broker_codes).Nodup := by
  have hperm := crawlLoop_perm fetch now (enumIdx 0 brokers) ⟨[], [], [], [], []⟩
  simp only [List.nil_append, enumIdx_map_snd_apply Broker.code 0 brokers] at hperm
  refine ⟨by simp [crawlAllBrokers], ?_, ?_, ?_⟩
  · rw [crawlRun_fresh, crawlLoop_fetched]
    simp [enumIdx_map_fst]
  · rw [crawlRun_fresh]
    have := hperm.length_eq
    simpa [List.length_append] using this
  · rw [crawlRun_fresh]
    exact hperm.nodup_iff.mpr (by simpa using hnd)

/-- Witness for C2: three distinct brokers, the middle fetch raising,
the last fetch returning no rows. -/
theorem C2_full_run_partition_witness :
    ((([⟨"AD", "a"⟩, ⟨"AF", "b"⟩, ⟨"AG", "c"⟩] : List Broker).map Broker.code).Nodup)
    ∧ (crawlAllBrokers true
          (fun i => if i = 0 then .rows [⟨"AD", "a", "buy", "AA", 1, 2, 3, 4, 5, "d", "t"⟩]
            else if i = 1 then .exn else .rows [])
          [⟨"AD", "a"⟩, ⟨"AF", "b"⟩, ⟨"AG", "c"⟩] false none 0
        = some (crawlRun
            (fun i => if i = 0 then .rows [⟨"AD", "a", "buy", "AA", 1, 2, 3, 4, 5, "d", "t"⟩]
              else if i = 1 then .exn else .rows [])
            [⟨"AD", "a"⟩, ⟨"AF", "b"⟩, ⟨"AG", "c"⟩] false none 0)
      ∧ (crawlRun
            (fun i => if i = 0 then .rows [⟨"AD", "a", "buy", "AA", 1, 2, 3, 4, 5, "d", "t"⟩]
              else if i = 1 then .exn else .rows [])
            [⟨"AD", "a"⟩, ⟨"AF", "b"⟩, ⟨"AG", "c"⟩] false none 0).fetched
          = idxSpan 0 ([⟨"AD", "a"⟩, ⟨"AF", "b"⟩, ⟨"AG", "c"⟩] : List Broker).length
      ∧ (crawlRun
            (fun i => if i = 0 then .rows [⟨"AD", "a", "buy", "AA", 1, 2, 3, 4, 5, "d", "t"⟩]
              else if i = 1 then .exn else .rows [])
            [⟨"AD", "a"⟩, ⟨"AF", "b"⟩, ⟨"AG", "c"⟩] false none 0).successful_broker_codes.length
          + (crawlRun
            (fun i => if i = 0 then .rows [⟨"AD", "a", "buy", "AA", 1, 2, 3, 4, 5, "d", "t"⟩]
              else if i = 1 then .exn else .rows [])
            [⟨"AD", "a"⟩, ⟨"AF", "b"⟩, ⟨"AG", "c"⟩] false none 0).failed_broker_codes.length
          = ([⟨"AD", "a"⟩, ⟨"AF", "b"⟩, ⟨"AG", "c"⟩] : List Broker).length
      ∧ ((crawlRun
            (fun i => if i = 0 then .rows [⟨"AD", "a", "buy", "AA", 1, 2, 3, 4, 5, "d", "t"⟩]
              else if i = 1 then .exn else .rows [])
            [⟨"AD", "a"⟩, ⟨"AF", "b"⟩, ⟨"AG", "c"⟩] false none 0).successful_broker_codes
          ++ (crawlRun
            (fun i => if i = 0 then .rows [⟨"AD", "a", "buy", "AA", 1, 2, 3, 4, 5, "d", "t"⟩]
              else if i = 1 then .exn else .rows [])
            [⟨"AD", "a"⟩, ⟨"AF", "b"⟩, ⟨"AG", "c"⟩] false none 0).failed_broker_codes).Nodup) :=
  ⟨by decide,
    C2_full_run_partition
      (fun i => if i = 0 then .rows [⟨"AD", "a", "buy", "AA", 1, 2, 3, 4, 5, "d", "t"⟩]
        else if i = 1 then .exn else .rows [])
      [⟨"AD", "a"⟩, ⟨"AF", "b"⟩, ⟨"AG", "c"⟩] 0 (by decide)⟩

/-! ## Claim C5 -/

/-- C5: when `crawl_all_brokers` is invoked with resume enabled and a
valid fresh checkpoint with `last_broker_index = k` is loaded, only the
entities at indices `k+1 .. N-1` are fetched, the final record set is
the checkpoint field `partial_data` followed by the newly fetched records,
and the summary reports the run as resumed. -/
theorem C5_resume_processes_tail (fetch : ℕ → FetchOutcome) (brokers : List Broker)
    (now : ℕ) (cp : Checkpoint) (k : ℕ)
    (hk : cp.last_broker_index = k)
    (hfresh : now - cp.started_at ≤ 7200) :
    (crawlRun fetch brokers true (some (.valid cp)) now).fetched
        = idxSpan (k + 1) (brokers.length - (k + 1))
    ∧ (crawlRun fetch brokers true (some (.valid cp)) now).data
        = cp.saved_rows ++ newRows fetch (enumIdx (k + 1) (brokers.drop (k + 1)))
    ∧ (crawlRun fetch brokers true (some (.valid cp)) now).resumed = true := by
  subst hk
  rw [crawlRun_resumed fetch brokers now cp hfresh]
  refine ⟨?_, ?_, rfl⟩
  · rw [crawlLoop_fetched]
    simp [enumIdx_map_fst, List.length_drop]
  · rw [crawlLoop_data]

/-- Witness for C5: resuming a two-broker run from a checkpoint at
index 0 fetches only index 1 and appends the new rows to the saved
ones. -/
theorem C5_resume_processes_tail_witness :
    (⟨100, 0, "AD", ["AD"], [], [⟨"AD", "a", "buy", "AA", 1, 2, 3, 4, 5, "d", "t"⟩]⟩ :
        Checkpoint).last_broker_index = 0
    ∧ (200 : ℕ) - (⟨100, 0, "AD", ["AD"], [],
        [⟨"AD", "a", "buy", "AA", 1, 2, 3, 4, 5, "d", "t"⟩]⟩ : Checkpoint).started_at ≤ 7200
    ∧ ((crawlRun (fun _ => .rows [⟨"AF", "b", "sell", "BB", 1, 2, 3, 4, 5, "d", "t"⟩])
          [⟨"AD", "a"⟩, ⟨"AF", "b"⟩] true
          (some (.valid ⟨100, 0, "AD", ["AD"], [],
            [⟨"AD", "a", "buy", "AA", 1, 2, 3, 4, 5, "d", "t"⟩]⟩)) 200).fetched
        = idxSpan (0 + 1) (([⟨"AD", "a"⟩, ⟨"AF", "b"⟩] : List Broker).length - (0 + 1))
      ∧ (crawlRun (fun _ => .rows [⟨"AF", "b", "sell", "BB", 1, 2, 3, 4, 5, "d", "t"⟩])
          [⟨"AD", "a"⟩, ⟨"AF", "b"⟩] true
          (some (.valid ⟨100, 0, "AD", ["AD"], [],
            [⟨"AD", "a", "buy", "AA", 1, 2, 3, 4, 5, "d", "t"⟩]⟩)) 200).data
        = (⟨100, 0, "AD", ["AD"], [],
            [⟨"AD", "a", "buy", "AA", 1, 2, 3, 4, 5, "d", "t"⟩]⟩ : Checkpoint).saved_rows
          ++ newRows (fun _ => .rows [⟨"AF", "b", "sell", "BB", 1, 2, 3, 4, 5, "d", "t"⟩])
              (enumIdx (0 + 1) (([⟨"AD", "a"⟩, ⟨"AF", "b"⟩] : List Broker).drop (0 + 1)))
      ∧ (crawlRun (fun _ => .rows [⟨"AF", "b", "sell", "BB", 1, 2, 3, 4, 5, "d", "t"⟩])
          [⟨"AD", "a"⟩, ⟨"AF", "b"⟩] true
          (some (.valid ⟨100, 0, "AD", ["AD"], [],
            [⟨"AD", "a", "buy", "AA", 1, 2, 3, 4, 5, "d", "t"⟩]⟩)) 200).resumed = true) :=
  ⟨rfl, by decide,
    C5_resume_processes_tail (fun _ => .rows [⟨"AF", "b", "sell", "BB", 1, 2, 3, 4, 5, "d", "t"⟩])
      [⟨"AD", "a"⟩, ⟨"AF", "b"⟩] 200
      ⟨100, 0, "AD", ["AD"], [], [⟨"AD", "a", "buy", "AA", 1, 2, 3, 4, 5, "d", "t"⟩]⟩ 0
      rfl (by decide)⟩

/-! ## Claim C3 -/

lemma crawlRun_fresh_data_empty (fetch : ℕ → FetchOutcome) (brokers : List Broker)
    (now : ℕ) (h : (crawlRun fetch brokers false none now).data = []) :
    (crawlRun fetch brokers false none now).successful_broker_codes = [] := by
  rw [crawlRun_fresh] at h ⊢
  by_contra hne
  exact crawlLoop_succ_inv fetch now (enumIdx 0 brokers) ⟨[], [], [], [], []⟩
    (fun hs => absurd rfl hs) hne h

/-- C3: on the happy path of `run_daily_crawl` (trading day, database
reachable, no prior successful crawl, login succeeds) with the crawl
result produced by `crawl_all_brokers`, the reported status is
`success` if and only if the proportion of successful brokers out of
all brokers is at least 0.8; otherwise the status is `partial_failure`
even though the crawl loop completed. -/
theorem C3_success_iff_threshold (fetch : ℕ → FetchOutcome) (brokers : List Broker)
    (now : ℕ) (hne : brokers ≠ []) :
    (runDailyCrawl true true false true (crawlRun fetch brokers false none now)
        brokers.length = RunStatus.success
      ↔ (4 : ℚ) / 5 * (brokers.length : ℚ)
          ≤ ((crawlRun fetch brokers false none now).successful_broker_codes.length : ℚ))
    ∧ (runDailyCrawl true true false true (crawlRun fetch brokers false none now)
          brokers.length = RunStatus.success
        ∨ runDailyCrawl true true false true (crawlRun fetch brokers false none now)
            brokers.length = RunStatus.partial_failure) := by
  have hlen : brokers.length ≠ 0 := fun h => hne (List.length_eq_zero.mp h)
  have hlenq : (0 : ℚ) < (brokers.length : ℚ) := by
    exact_mod_cast Nat.pos_of_ne_zero hlen
  have hcount :
      (if (crawlRun fetch brokers false none now).data = [] then 0
        else (crawlRun fetch brokers false none now).successful_broker_codes.length)
      = (crawlRun fetch brokers false none now).successful_broker_codes.length := by
    by_cases h : (crawlRun fetch brokers false none now).data = []
    · simp [h, crawlRun_fresh_data_empty fetch brokers now h]
    · simp [h]
  simp only [runDailyCrawl, hcount, hlen, reduceCtorEq]
  simp only [Bool.true_eq_false, if_false, Bool.false_eq_true, if_neg, ite_false,
    if_false]
  constructor
  · by_cases hrate : (4 : ℚ) / 5
        ≤ ((crawlRun fetch brokers false none now).successful_broker_codes.length : ℚ)
          / (brokers.length : ℚ)
    · simp only [hrate, ite_true]
      rw [le_div_iff₀ hlenq] at hrate
      simp [hrate]
    · simp only [hrate, ite_false]
      rw [le_div_iff₀ hlenq] at hrate
      constructor
      · intro h
        exact absurd h (by simp)
      · intro h
        exact absurd h hrate
  · by_cases hrate : (4 : ℚ) / 5
        ≤ ((crawlRun fetch brokers false none now).successful_broker_codes.length : ℚ)
          / (brokers.length : ℚ)
    · simp [hrate]
    · simp [hrate]

/-- Witness for C3: a one-broker run whose fetch succeeds is reported
as `success`, and the threshold inequality holds. -/
theorem C3_success_iff_threshold_witness :
    (([⟨"AD", "a"⟩] : List Broker) ≠ [])
    ∧ ((runDailyCrawl true true false true
          (crawlRun (fun _ => .rows [⟨"AD", "a", "buy", "AA", 1, 2, 3, 4, 5, "d", "t"⟩])
            [⟨"AD", "a"⟩] false none 0)
          ([⟨"AD", "a"⟩] : List Broker).length = RunStatus.success
        ↔ (4 : ℚ) / 5 * ((([⟨"AD", "a"⟩] : List Broker).length : ℕ) : ℚ)
            ≤ (((crawlRun (fun _ => .rows [⟨"AD", "a", "buy", "AA", 1, 2, 3, 4, 5, "d", "t"⟩])
                [⟨"AD", "a"⟩] false none 0).successful_broker_codes.length : ℕ) : ℚ))
      ∧ (runDailyCrawl true true false true
            (crawlRun (fun _ => .rows [⟨"AD", "a", "buy", "AA", 1, 2, 3, 4, 5, "d", "t"⟩])
              [⟨"AD", "a"⟩] false none 0)
            ([⟨"AD", "a"⟩] : List Broker).length = RunStatus.success
          ∨ runDailyCrawl true true false true
              (crawlRun (fun _ => .rows [⟨"AD", "a", "buy", "AA", 1, 2, 3, 4, 5, "d", "t"⟩])
                [⟨"AD", "a"⟩] false none 0)
              ([⟨"AD", "a"⟩] : List Broker).length = RunStatus.partial_failure)) :=
  ⟨by decide,
    C3_success_iff_threshold
      (fun _ => .rows [⟨"AD", "a", "buy", "AA", 1, 2, 3, 4, 5, "d", "t"⟩])
      [⟨"AD", "a"⟩] 0 (by decide)⟩

/-! ## Claim C1 -/


/-- C1 counterexample: with the crawler configuration
(`max_retries = 3`) and a session refresh that always succeeds, two
consecutive authentication failures on the same logical request do NOT
make `_send_dash_request` fail after one re-authentication — the code
refreshes the session a second time, retries again and returns the
payload of the third attempt.  This falsifies "exactly one
re-authentication-and-retry before treating that request as failed". -/
theorem C1_counterexample :
    (sendDashRequest 3 1 10 true c1Posts (fun _ => true)).refreshes = 2
    ∧ (sendDashRequest 3 1 10 true c1Posts (fun _ => true)).result
        = some ⟨none, none⟩ := by
  constructor <;> rfl

lemma sendLoop_refreshes_le (baseDelay maxDelay : ℚ) (retryOnAuthFail : Bool)
    (posts : ℕ → PostResult) (refreshOk : ℕ → Bool)
    (rem attempt nRefresh : ℕ) (sleeps : List ℚ) :
    (sendLoop baseDelay maxDelay retryOnAuthFail posts refreshOk
        rem attempt nRefresh sleeps).refreshes ≤ nRefresh + rem := by
  induction rem generalizing attempt nRefresh sleeps with
  | zero => exact le_rfl
  | succ n ih =>
      simp only [sendLoop]
      split
      · split_ifs with h1 h2
        · exact le_trans (ih (attempt + 1) (nRefresh + 1) sleeps) (by omega)
        · show nRefresh + 1 ≤ nRefresh + (n + 1)
          omega
        · exact Nat.le_add_right nRefresh (n + 1)
      · exact le_trans (ih (attempt + 1) nRefresh _) (by omega)
      · exact Nat.le_add_right nRefresh (n + 1)
      · exact le_trans (ih (attempt + 1) nRefresh _) (by omega)
      · exact le_trans (ih (attempt + 1) nRefresh _) (by omega)
      · exact Nat.le_add_right nRefresh (n + 1)
      · exact Nat.le_add_right nRefresh (n + 1)

/-- C1 (amended): a 401/403 response makes `_send_dash_request` refresh
the session and retry; consecutive auth failures each trigger a further
refresh, consuming the shared attempt budget, so the number of session
refresh attempts on one logical request is bounded by `max_retries`
(it is not limited to one) and the executor never loops forever on
repeated auth failures. -/
theorem C1_auth_retry_bounded (maxRetries : ℕ) (baseDelay maxDelay : ℚ)
    (retryOnAuthFail : Bool) (posts : ℕ → PostResult) (refreshOk : ℕ → Bool) :
    (sendDashRequest maxRetries baseDelay maxDelay retryOnAuthFail
        posts refreshOk).refreshes ≤ maxRetries := by
  simpa using sendLoop_refreshes_le baseDelay maxDelay retryOnAuthFail posts refreshOk
    maxRetries 0 0 []

/-! ## Claim C4 -/

/-- C4 counterexample: a one-broker run whose only fetch raises ends
with that broker recorded as failed, yet the checkpoint file is removed
at the end of the run (`file_after = none` embeds the unconditional
`self._clear_checkpoint()` at broker_crawler.py line 776).  This
falsifies "a run that ends with failed entities leaves the checkpoint
in place". -/
theorem C4_counterexample :
    (crawlRun (fun _ => .exn) [⟨"AD", "OSO Sekuritas Indonesia"⟩] false none 0).failed_broker_codes
        = ["AD"]
    ∧ (crawlRun (fun _ => .exn) [⟨"AD", "OSO Sekuritas Indonesia"⟩] false none 0).file_after
        = none := by
  constructor <;> rfl

/-- C4 (amended): during a run the checkpoint is only overwritten — it
is saved once per processed entity — and at the end of every completed
run of `crawl_all_brokers`, whether or not entities failed, the
checkpoint file is removed unconditionally. -/
theorem C4_checkpoint_cleared_every_run (fetch : ℕ → FetchOutcome)
    (brokers : List Broker) (resume : Bool) (file : Option FileContent) (now : ℕ) :
    (crawlRun fetch brokers resume file now).saves.length
        = brokers.length - startIndex (if resume then loadCheckpoint now file else none)
    ∧ (crawlRun fetch brokers resume file now).file_after = none := by
  constructor
  · simp only [crawlRun]
    cases hcp : (if resume then loadCheckpoint now file else none) with
    | none =>
        simp [hcp, crawlLoop_saves_length, initState, enumIdx_length, List.length_drop]
    | some c =>
        simp [hcp, crawlLoop_saves_length, initState, enumIdx_length, List.length_drop]
  · simp [crawlRun]

/-! ## Claim C6 -/

/-- C6 counterexample: in the never-authenticated state the session
counts as expired/stale by `_is_session_expired`, yet
`_ensure_session_valid` performs no cookie clearing and no new
`login()` call — it returns `False` leaving the state untouched.  This
falsifies "whenever the session is expired or stale ... it clears all
session-scoped cookies/tokens and calls authenticate() again". -/
theorem C6_counterexample :
    isSessionExpired 0 25 ⟨false, none⟩ = true
    ∧ (ensureSessionValid true 0 25 ⟨false, none⟩).auth_calls = 0
    ∧ (ensureSessionValid true 0 25 ⟨false, none⟩).cookie_clears = 0
    ∧ (ensureSessionValid true 0 25 ⟨false, none⟩).st = ⟨false, none⟩ := by
  refine ⟨rfl, rfl, rfl, rfl⟩

/-- C6 (amended): when the crawler is not logged in,
`_ensure_session_valid` returns failure without clearing anything or
re-authenticating; when it is logged in and the session is fresh it is
a no-op; when it is logged in and the session is expired or stale it
clears the session cookies and calls `login()` again (on a successful
login the creation time of the new session is the current time). -/
theorem C6_ensure_session_valid_cases (login_ok : Bool) (now max_age : ℕ)
    (st : SessionState) :
    (st.logged_in = false →
        ensureSessionValid login_ok now max_age st = ⟨false, st, 0, 0⟩)
    ∧ (st.logged_in = true → isSessionExpired now max_age st = false →
        ensureSessionValid login_ok now max_age st = ⟨true, st, 0, 0⟩)
    ∧ (st.logged_in = true → isSessionExpired now max_age st = true →
        (ensureSessionValid login_ok now max_age st).cookie_clears = 1
        ∧ (ensureSessionValid login_ok now max_age st).auth_calls = 1
        ∧ (login_ok = true →
            ensureSessionValid login_ok now max_age st
              = ⟨true, ⟨true, some now⟩, 1, 1⟩)) := by
  refine ⟨?_, ?_, ?_⟩
  · intro h
    simp [ensureSessionValid, h]
  · intro h hex
    simp [ensureSessionValid, h, hex]
  · intro h hex
    refine ⟨?_, ?_, ?_⟩
    · simp [ensureSessionValid, h, hex, refreshSession, loginModel]
    · simp [ensureSessionValid, h, hex, refreshSession, loginModel]
    · intro hl
      simp [ensureSessionValid, h, hex, refreshSession, loginModel, hl]

/-- Witness for C6 (amended), exercising all three branches with the
configured `session_max_age_minutes = 25`: a logged-out state, a fresh
session, and a session exactly 25 minutes old. -/
theorem C6_ensure_session_valid_cases_witness :
    ensureSessionValid true 5 25 ⟨false, none⟩ = ⟨false, ⟨false, none⟩, 0, 0⟩
    ∧ ensureSessionValid true 5 25 ⟨true, some 5⟩ = ⟨true, ⟨true, some 5⟩, 0, 0⟩
    ∧ ((ensureSessionValid true 1500 25 ⟨true, some 0⟩).cookie_clears = 1
        ∧ (ensureSessionValid true 1500 25 ⟨true, some 0⟩).auth_calls = 1
        ∧ (true = true →
            ensureSessionValid true 1500 25 ⟨true, some 0⟩
              = ⟨true, ⟨true, some 1500⟩, 1, 1⟩)) :=
  ⟨(C6_ensure_session_valid_cases true 5 25 ⟨false, none⟩).1 rfl,
    (C6_ensure_session_valid_cases true 5 25 ⟨true, some 5⟩).2.1 rfl (by decide),
    (C6_ensure_session_valid_cases true 1500 25 ⟨true, some 0⟩).2.2 rfl (by decide)⟩

/-! ## Claim C10 -/


lemma findDataTable_none_of_no_table (cs : List DashChild)
    (h : ∀ c ∈ cs, isDataTableChild c = false) : findDataTable cs = none := by
  induction cs with
  | nil => rfl
  | cons c rest ih =>
      cases c with
      | node ctype tdata =>
          have hc : (ctype = "DataTable") = False := by
            simpa [isDataTableChild] using h _ (List.mem_cons_self _ rest)
          simp only [findDataTable, hc, if_false, ite_false]
          · exact ih fun x hx => h x (List.mem_cons_of_mem _ hx)
      | nonDict =>
          simp only [findDataTable]
          exact ih fun x hx => h x (List.mem_cons_of_mem _ hx)

/-- C10: a broker whose fetch yields zero parsed rows is recorded by
the `crawl_all_brokers` loop in `failed_brokers` and never in
`successful_brokers`; a broker is counted successful exactly when at
least one row was parsed for it.  The zero-row cases include a crawler
that is no longer logged in (`fetch_broker_data` returns `[]` at once)
and a response with no `DataTable` child in either component
(`_extract_table_data_from_children` returns `None`). -/
theorem C10_zero_rows_failed (logged_in : Bool) (resp : Option DashResp)
    (st : CrawlState) (started_at i : ℕ) (b : Broker) (cd ct : String)
    (cs : List DashChild) (dr : DashResp) (rs : List BrokerDataRow)
    (hrs : rs = fetchBrokerData logged_in resp b.code b.name cd ct) :
    ((processOne (fun _ => .rows rs) started_at st (i, b)).successful_brokers
        = st.successful_brokers ++ [b.code] ↔ rs ≠ [])
    ∧ (rs = [] →
        (processOne (fun _ => .rows rs) started_at st (i, b)).failed_brokers
            = st.failed_brokers ++ [b.code]
        ∧ (processOne (fun _ => .rows rs) started_at st (i, b)).successful_brokers
            = st.successful_brokers)
    ∧ (logged_in = false → rs = [])
    ∧ ((∀ c ∈ cs, isDataTableChild c = false) → findDataTable cs = none)
    ∧ (resp = some dr → extractTableDataFromChildren dr.akum = none
        → extractTableDataFromChildren dr.dist = none → rs = []) := by
  refine ⟨?_, ?_, ?_, findDataTable_none_of_no_table cs, ?_⟩
  · by_cases h : rs = []
    · simp [processOne, classifyFetch, h]
    · simp [processOne, classifyFetch, h]
  · intro h
    simp [processOne, classifyFetch, h]
  · intro h
    simp [hrs, fetchBrokerData, h]
  · intro hdr h1 h2
    subst hrs hdr
    cases logged_in with
    | false => simp [fetchBrokerData]
    | true => simp [fetchBrokerData, h1, h2]

/-- Witness for C10: a logged-out fetch produces zero rows and the
broker lands in `failed_brokers`; a single non-`DataTable` child yields
no table data. -/
theorem C10_zero_rows_failed_witness :
    (((processOne (fun _ => .rows []) 0 ⟨[], [], [], [], []⟩ (0, ⟨"AD", "a"⟩)).successful_brokers
        = ([] : List String) ++ ["AD"] ↔ ([] : List BrokerDataRow) ≠ [])
      ∧ (([] : List BrokerDataRow) = [] →
          (processOne (fun _ => .rows []) 0 ⟨[], [], [], [], []⟩ (0, ⟨"AD", "a"⟩)).failed_brokers
              = ([] : List String) ++ ["AD"]
          ∧ (processOne (fun _ => .rows []) 0 ⟨[], [], [], [], []⟩ (0, ⟨"AD", "a"⟩)).successful_brokers
              = ([] : List String))
      ∧ (false = false → ([] : List BrokerDataRow) = [])
      ∧ ((∀ c ∈ [DashChild.node "Label" none], isDataTableChild c = false)
          → findDataTable [DashChild.node "Label" none] = none)
      ∧ ((none : Option DashResp) = some ⟨none, none⟩
          → extractTableDataFromChildren (DashResp.mk none none).akum = none
          → extractTableDataFromChildren (DashResp.mk none none).dist = none
          → ([] : List BrokerDataRow) = [])) :=
  C10_zero_rows_failed false none ⟨[], [], [], [], []⟩ 0 0 ⟨"AD", "a"⟩ "d" "t"
    [DashChild.node "Label" none] ⟨none, none⟩ [] (by decide)
